import Mathlib

/-!
Verification of the demo application in `src/demo_app.py`.

The app has two pieces of real logic, both embedded here:

* the file locator in `main` (lines 233-237):
  `audio_files = sorted(SEGMENTS_DIR.glob("*.mp3"))` when the directory
  exists, otherwise `[]` plus a printed warning;
* the serving endpoint `src` (lines 259-265): build `Path(path)`, serve
  the file bytes with media type `audio/mpeg` when `is_file()` holds,
  otherwise return the 404 text `"Audio file not found"`.

The filesystem is modelled as explicit data: an association list from
path strings to byte contents for regular files, and one from directory
paths to their entry names. `Path(path)` construction is modelled as the
identity on path strings: the filesystem is keyed by the path strings the
program manipulates. Byte contents are lists of naturals (each < 256 in
any concrete witness). Printing a warning is modelled by returning the
warning text; reading a file is recorded in an explicit read trace so
that "reads no bytes" is a provable statement.
-/

/-- A snapshot of the filesystem: regular files with their byte contents,
and directories with the names of their entries. -/
structure FS where
  files : List (String × List Nat)
  dirs : List (String × List String)
deriving DecidableEq

/-- Python `Path.is_file`: the path names an existing regular file. -/
def FS.isFile (fs : FS) (p : String) : Bool :=
  (fs.files.lookup p).isSome

/-- The byte contents of a regular file (empty for non-files; only ever
used under an `isFile` guard). -/
def FS.readFile (fs : FS) (p : String) : List Nat :=
  (fs.files.lookup p).getD []

/-- The path names an existing directory. -/
def FS.isDir (fs : FS) (p : String) : Bool :=
  (fs.dirs.lookup p).isSome

/-- Python `Path.exists`: the path names an existing directory or regular file. -/
def FS.pathExists (fs : FS) (p : String) : Bool :=
  fs.isDir p || fs.isFile p

/-- The entry names of a directory (empty for non-directories). -/
def FS.listDir (fs : FS) (p : String) : List String :=
  (fs.dirs.lookup p).getD []

/-- Constant from demo_app.py line 48. -/
def AUDIO_SRC_PREFIX : String := "/audio/src"

/-- Decide whether one character sequence is a suffix of another
(executable form of the extension test used by the glob pattern). -/
def hasExt (ext name : String) : Bool :=
  List.isSuffixOf ext.data name.data

/-- The glob pattern `*.mp3` as a predicate on entry names: `*` matches
any (possibly empty) sequence of characters and `.mp3` is literal, so a
name matches exactly when its characters end with the four characters of
`.mp3`. -/
def matchesMp3Glob (name : String) : Bool :=
  hasExt ".mp3" name

/-- Join of a directory path and an entry name, as in `SEGMENTS_DIR / name`. -/
def joinPath (dir name : String) : String :=
  dir ++ "/" ++ name

/-- Lexicographic comparison of character sequences by code point. -/
def charListLe : List Char → List Char → Bool
  | [], _ => true
  | _ :: _, [] => false
  | a :: as, b :: bs =>
      if a < b then true
      else if b < a then false
      else charListLe as bs

/-- The ordering used by Python `sorted` on paths of a common directory:
lexicographic string comparison by code points. It is proved below to
agree with the `≤` order on `String`. -/
def strLe (a b : String) : Bool :=
  charListLe a.data b.data

/-- The file locator from `main` (demo_app.py lines 233-237): if
`SEGMENTS_DIR.exists()`, glob the directory for `*.mp3` (each match is the
directory path joined with the entry name) and sort ascending; otherwise
return no files and print a warning. The first component is `audio_files`,
the second the warnings printed. -/
def findAudioFiles (fs : FS) (dir : String) : List String × List String :=
  if fs.pathExists dir then
    (List.mergeSort (((fs.listDir dir).filter matchesMp3Glob).map (joinPath dir)) strLe, [])
  else
    ([], ["Warning: No segments dir at " ++ dir])

/-- URL building from demo_app.py line 242: the audio route, then the
text of the path key, then the path itself — literal string concatenation
with no percent-encoding or escaping. -/
def buildAudioUrl (f : String) : String :=
  AUDIO_SRC_PREFIX ++ "?path=" ++ f

/-- The state built by `main` at startup (demo_app.py lines 232-242):
the audio file list, the derived URL list, the warnings printed, and a
trace of the directory scans performed. -/
structure Startup where
  audio_files : List String
  audio_urls : List String
  warnings : List String
  scans : List String
deriving DecidableEq

/-- The startup computation of `main`: locate the audio files once and
derive the URLs. The scan trace records the single `glob` performed when
the directory exists. -/
def mainStartup (fs : FS) (segmentsDir : String) : Startup :=
  let located := findAudioFiles fs segmentsDir
  { audio_files := located.1
  , audio_urls := located.1.map buildAudioUrl
  , warnings := located.2
  , scans := if fs.pathExists segmentsDir then [segmentsDir] else [] }

/-- A response body: raw file bytes (a `FileResponse`) or plain text. -/
inductive Body where
  | bytes (b : List Nat)
  | text (s : String)
deriving DecidableEq

/-- An HTTP response: status code, body, and media type. A plain-text
tuple return `("...", 404)` carries media type `text/plain`. -/
structure Response where
  status : Nat
  body : Body
  media_type : String
deriving DecidableEq

/-- Result of one invocation of the `src` endpoint: the response together
with the trace of files whose bytes were read from disk. -/
structure SrcResult where
  response : Response
  filesRead : List String
deriving DecidableEq

/-- The serving endpoint `src` (demo_app.py lines 259-265):

    file_path = Path(path)
    if file_path.is_file():
        return FileResponse(str(file_path), media_type="audio/mpeg")
    return "Audio file not found", 404

A total function: every input yields a response, no exception escapes.
The path is used as given, with no containment check against any
directory. -/
def src (fs : FS) (path : String) : SrcResult :=
  let file_path := path
  if fs.isFile file_path then
    { response :=
        { status := 200
        , body := Body.bytes (fs.readFile file_path)
        , media_type := "audio/mpeg" }
    , filesRead := [file_path] }
  else
    { response :=
        { status := 404
        , body := Body.text "Audio file not found"
        , media_type := "text/plain" }
    , filesRead := [] }

/-- Extraction of the `path` query parameter by the routing layer (an
external collaborator): for URLs of the shape built at startup, the text
after the literal `"/audio/src?path="`. No percent-decoding exists in the
URL builder, so extraction is the literal suffix. -/
def queryPathParam (url : String) : Option String :=
  if "/audio/src?path=".data.isPrefixOf url.data then
    some (String.mk (url.data.drop "/audio/src?path=".data.length))
  else
    none

/-- Modelled from the spec: "an audio MIME type appropriate to the format
(e.g., MPEG audio)". The MIME type standardly appropriate to a file,
determined by its extension. The concrete serving code is present in
src/, so this definition exists only as the spec-side comparison point
for the media-type claim. -/
def appropriateAudioMime (path : String) : String :=
  if hasExt ".mp3" path then "audio/mpeg"
  else if hasExt ".wav" path then "audio/wav"
  else if hasExt ".ogg" path then "audio/ogg"
  else if hasExt ".flac" path then "audio/flac"
  else "application/octet-stream"

/-- A request reaching the app: the index page route or the audio
serving route with its `path` parameter. -/
inductive Request where
  | index (isHtmx : Bool)
  | audioSrc (path : String)
deriving DecidableEq

/-- The in-memory state of the running app: the filesystem and the two
lists closed over by the page renderer at startup. -/
structure AppState where
  fs : FS
  audio_files : List String
  audio_urls : List String
deriving DecidableEq

/-- A reply to one request. Page rendering is delegated to external
libraries; the page is modelled by the data the handler passes into it:
the segment count (line 203) and the URL list (lines 151 and 191). -/
inductive Reply where
  | page (segmentCount : Nat) (urls : List String)
  | audio (result : SrcResult)
deriving DecidableEq

/-- Handle one request (demo_app.py lines 259-276): the `src` route calls
the endpoint on the app's filesystem; the index route renders from the
startup lists. The final component traces directory scans performed while
handling (none: neither handler globs a directory). -/
def handleRequest (st : AppState) (r : Request) : AppState × Reply × List String :=
  match r with
  | .index _ => (st, .page st.audio_files.length st.audio_urls, [])
  | .audioSrc p => (st, .audio (src st.fs p), [])

/-- Handle a sequence of requests, threading the app state and
accumulating the directory-scan trace. -/
def handleRequests (st : AppState) : List Request → AppState × List String
  | [] => (st, [])
  | r :: rs =>
      let step := handleRequest st r
      let rest := handleRequests step.1 rs
      (rest.1, step.2.2 ++ rest.2)

/-- A concrete filesystem used to instantiate the theorems: the segments
directory with two matching entries and one non-matching entry, the two
matching entries as regular files, a regular file far outside the
segments directory, and a regular WAV file. -/
def fsDemo : FS :=
  { files :=
      [ ("test_files/segments/a.mp3", [73, 68, 51])
      , ("test_files/segments/b.mp3", [0, 1, 2])
      , ("/etc/passwd", [114, 111, 111, 116])
      , ("a.wav", [82, 73, 70, 70]) ]
  , dirs := [("test_files/segments", ["b.mp3", "c.wav", "a.mp3"])] }

/-- A concrete filesystem with no segments directory but with one of the
same regular files as in the other fixture. -/
def fsNoDir : FS :=
  { files := [("test_files/segments/a.mp3", [73, 68, 51])]
  , dirs := [] }

/-- The locator contract: the located list is a permutation of the
matching entries joined to the directory, it is sorted ascending, its
length is the number of matching entries, every matching entry appears,
and no non-matching entry appears. -/
def LocatorSpec (fs : FS) (dir : String) : Prop :=
  ((findAudioFiles fs dir).1).Perm
      (((fs.listDir dir).filter matchesMp3Glob).map (joinPath dir)) ∧
  ((findAudioFiles fs dir).1).Pairwise (fun a b => a ≤ b) ∧
  ((findAudioFiles fs dir).1).length = ((fs.listDir dir).filter matchesMp3Glob).length ∧
  (∀ n ∈ fs.listDir dir, matchesMp3Glob n = true → joinPath dir n ∈ (findAudioFiles fs dir).1) ∧
  (∀ n ∈ fs.listDir dir, matchesMp3Glob n = false → joinPath dir n ∉ (findAudioFiles fs dir).1)

/-- Strings with equal character data are equal. -/
theorem string_data_inj {a b : String} (h : a.data = b.data) : a = b := by
  cases a
  cases b
  exact congrArg String.mk h

/-- Rebuilding a string from its character data is the identity. -/
theorem string_mk_data (s : String) : String.mk s.data = s := by
  cases s
  rfl

/-- Joining a fixed directory with two entry names gives equal paths only
for equal names. -/
theorem joinPath_right_inj {dir a b : String} (h : joinPath dir a = joinPath dir b) : a = b := by
  have h1 : dir.data ++ ("/".data ++ a.data) = dir.data ++ ("/".data ++ b.data) := by
    simpa [joinPath, List.append_assoc] using congrArg String.data h
  exact string_data_inj (List.append_cancel_left (List.append_cancel_left h1))

/-- The executable lexicographic comparison agrees with the negation of
the lexicographic strict order on character lists. -/
theorem charListLe_iff_not_lex : ∀ as bs : List Char,
    charListLe as bs = true ↔ ¬ List.Lex (· < ·) bs as
  | [], bs => by
      simp [charListLe, List.Lex.not_nil_right]
  | a :: as, [] => by
      simp [charListLe]
      exact List.Lex.nil
  | a :: as, b :: bs => by
      by_cases hab : a < b
      · simp only [charListLe, if_pos hab]
        constructor
        · intro _ h
          cases h with
          | rel h => exact absurd hab (lt_asymm h)
          | cons h => exact lt_irrefl a hab
        · intro _
          trivial
      · by_cases hba : b < a
        · simp only [charListLe, if_neg hab, if_pos hba]
          constructor
          · intro h
            cases h
          · intro h
            exact absurd (List.Lex.rel hba) h
        · have heq : a = b := le_antisymm (le_of_not_lt hba) (le_of_not_lt hab)
          subst heq
          simp only [charListLe, if_neg hab, if_neg hba]
          rw [charListLe_iff_not_lex as bs]
          constructor
          · intro h hl
            exact h (List.Lex.cons_iff.mp hl)
          · intro h hl
            exact h (List.Lex.cons hl)

/-- The executable comparison used by the locator agrees with the
canonical order on strings. -/
theorem strLe_iff (a b : String) : strLe a b = true ↔ a ≤ b := by
  rw [strLe, charListLe_iff_not_lex]
  apply not_congr
  rw [String.lt_iff_toList_lt]
  exact Iff.rfl

/-- Transitivity of the executable string comparison. -/
theorem strLe_trans (a b c : String) (h1 : strLe a b) (h2 : strLe b c) : strLe a c := by
  rw [strLe_iff] at *
  exact le_trans h1 h2

/-- Totality of the executable string comparison. -/
theorem strLe_total (a b : String) : strLe a b || strLe b a := by
  rcases le_total a b with h | h
  · rw [Bool.or_eq_true]
    exact Or.inl ((strLe_iff a b).mpr h)
  · rw [Bool.or_eq_true]
    exact Or.inr ((strLe_iff b a).mpr h)

/-- The URL built for a path is the literal query text followed by the
path. -/
theorem buildAudioUrl_eq (f : String) : buildAudioUrl f = "/audio/src?path=" ++ f := by
  calc buildAudioUrl f = ( AUDIO_SRC_PREFIX ++ "?path=") ++ f := rfl
    _ = "/audio/src?path=" ++ f := by
        rw [show AUDIO_SRC_PREFIX ++ "?path=" = "/audio/src?path=" from by decide]

/-- Extracting the path query parameter from a built URL returns exactly
the path that was embedded. -/
theorem queryPathParam_buildAudioUrl (f : String) :
    queryPathParam (buildAudioUrl f) = some f := by
  have hdata : (buildAudioUrl f).data = "/audio/src?path=".data ++ f.data := by
    rw [buildAudioUrl_eq, String.data_append]
  simp only [queryPathParam, hdata]
  rw [if_pos (List.isPrefixOf_iff_prefix.mpr (List.prefix_append _ _))]
  rw [List.drop_left]

/-- Handling any sequence of requests leaves the whole app state fixed
and performs no directory scan. -/
theorem handleRequests_state_fix (st : AppState) (rs : List Request) :
    (handleRequests st rs).1 = st ∧ (handleRequests st rs).2 = [] := by
  induction rs generalizing st with
  | nil => exact ⟨rfl, rfl⟩
  | cons r rs ih =>
      cases r with
      | index b => simpa [handleRequests, handleRequest] using ih st
      | audioSrc p => simpa [handleRequests, handleRequest] using ih st

/-- C1: for every path argument that names an existing regular file, the
serving endpoint src returns status 200, a body equal to the exact bytes
of the file, and MIME type audio/mpeg. -/
theorem src_serves_existing_file (fs : FS) (p : String) (h : fs.isFile p = true) :
    (src fs p).response =
      { status := 200, body := Body.bytes (fs.readFile p), media_type := "audio/mpeg" } := by
  simp [src, h]

/-- Witness for C1 at a concrete file of the concrete filesystem. -/
theorem src_serves_existing_file_witness :
    fsDemo.isFile "test_files/segments/a.mp3" = true ∧
    (src fsDemo "test_files/segments/a.mp3").response =
      { status := 200
      , body := Body.bytes (fsDemo.readFile "test_files/segments/a.mp3")
      , media_type := "audio/mpeg" } :=
  ⟨by decide, src_serves_existing_file fsDemo "test_files/segments/a.mp3" (by decide)⟩

/-- C2: for every existing directory, the locator returns exactly the
entries matching the glob pattern (as paths joined to the directory),
sorted ascending, with every matching entry included and every
non-matching entry excluded. -/
theorem locator_returns_exactly_matching_sorted (fs : FS) (dir : String)
    (h : fs.pathExists dir = true) : LocatorSpec fs dir := by
  unfold LocatorSpec
  have hres : (findAudioFiles fs dir).1 =
      List.mergeSort (((fs.listDir dir).filter matchesMp3Glob).map (joinPath dir)) strLe := by
    simp [findAudioFiles, h]
  rw [hres]
  refine ⟨List.mergeSort_perm _ _, ?_, ?_, ?_, ?_⟩
  · exact (List.sorted_mergeSort strLe_trans strLe_total _).imp
      (fun hab => (strLe_iff _ _).mp hab)
  · rw [List.length_mergeSort, List.length_map]
  · intro n hn hm
    rw [List.mem_mergeSort]
    exact List.mem_map_of_mem _ (List.mem_filter.mpr ⟨hn, hm⟩)
  · intro n hn hm hcontra
    rw [List.mem_mergeSort] at hcontra
    obtain ⟨m, hmem, heq⟩ := List.mem_map.mp hcontra
    have hmn : m = n := joinPath_right_inj heq
    subst hmn
    have hmatch := (List.mem_filter.mp hmem).2
    rw [hm] at hmatch
    exact Bool.false_ne_true hmatch

/-- Witness for C2 at the concrete filesystem: the segments directory
holds entries b.mp3, c.wav and a.mp3. -/
theorem locator_returns_exactly_matching_sorted_witness :
    fsDemo.pathExists "test_files/segments" = true ∧
    LocatorSpec fsDemo "test_files/segments" :=
  ⟨by decide, locator_returns_exactly_matching_sorted fsDemo "test_files/segments" (by decide)⟩

/-- C3: for every path argument that does not name an existing regular
file (nonexistent paths and directories alike), src returns status 404
with the plain-text body of the not-found message, reads no file bytes,
and — being a total function — propagates no exception. -/
theorem src_missing_404_no_read (fs : FS) (p : String) (h : fs.isFile p = false) :
    (src fs p).response =
      { status := 404, body := Body.text "Audio file not found", media_type := "text/plain" } ∧
    (src fs p).filesRead = [] := by
  simp [src, h]

/-- Witness for C3 at a path that is a directory, not a regular file. -/
theorem src_missing_404_no_read_witness :
    fsDemo.isFile "test_files/segments" = false ∧
    ((src fsDemo "test_files/segments").response =
      { status := 404, body := Body.text "Audio file not found", media_type := "text/plain" } ∧
     (src fsDemo "test_files/segments").filesRead = []) :=
  ⟨by decide, src_missing_404_no_read fsDemo "test_files/segments" (by decide)⟩

/-- C4: if the segments directory does not exist, startup produces an
empty file list (hence an empty URL list) and emits exactly the warning;
no error is raised, the startup function being total. -/
theorem locator_missing_dir_empty_warn (fs : FS) (dir : String)
    (h : fs.pathExists dir = false) :
    (mainStartup fs dir).audio_files = [] ∧
    (mainStartup fs dir).audio_urls = [] ∧
    (mainStartup fs dir).warnings = ["Warning: No segments dir at " ++ dir] := by
  simp [mainStartup, findAudioFiles, h]

/-- Witness for C4 at a filesystem with no segments directory. -/
theorem locator_missing_dir_empty_warn_witness :
    fsNoDir.pathExists "test_files/segments" = false ∧
    ((mainStartup fsNoDir "test_files/segments").audio_files = [] ∧
     (mainStartup fsNoDir "test_files/segments").audio_urls = [] ∧
     (mainStartup fsNoDir "test_files/segments").warnings =
       ["Warning: No segments dir at " ++ "test_files/segments"]) :=
  ⟨by decide, locator_missing_dir_empty_warn fsNoDir "test_files/segments" (by decide)⟩

/-- C5: for every audio file found by the locator at startup, the URL
built for it appears in the URL list, extracting the path query
parameter from that URL yields the very same path, and feeding that path
to src yields status 200 with the bytes of that file. -/
theorem audio_url_roundtrip (fs : FS) (segmentsDir f : String)
    (hmem : f ∈ (mainStartup fs segmentsDir).audio_files)
    (hfile : fs.isFile f = true) :
    buildAudioUrl f ∈ (mainStartup fs segmentsDir).audio_urls ∧
    queryPathParam (buildAudioUrl f) = some f ∧
    (src fs f).response.status = 200 ∧
    (src fs f).response.body = Body.bytes (fs.readFile f) := by
  refine ⟨?_, queryPathParam_buildAudioUrl f, ?_, ?_⟩
  · have hurls : (mainStartup fs segmentsDir).audio_urls =
        (mainStartup fs segmentsDir).audio_files.map buildAudioUrl := rfl
    rw [hurls]
    exact List.mem_map_of_mem _ hmem
  · simp [src, hfile]
  · simp [src, hfile]

/-- Witness for C5 at a concrete located file. -/
theorem audio_url_roundtrip_witness :
    ("test_files/segments/a.mp3" ∈ (mainStartup fsDemo "test_files/segments").audio_files ∧
     fsDemo.isFile "test_files/segments/a.mp3" = true) ∧
    (buildAudioUrl "test_files/segments/a.mp3" ∈
       (mainStartup fsDemo "test_files/segments").audio_urls ∧
     queryPathParam (buildAudioUrl "test_files/segments/a.mp3") =
       some "test_files/segments/a.mp3" ∧
     (src fsDemo "test_files/segments/a.mp3").response.status = 200 ∧
     (src fsDemo "test_files/segments/a.mp3").response.body =
       Body.bytes (fsDemo.readFile "test_files/segments/a.mp3")) := by
  have hmem : "test_files/segments/a.mp3" ∈
      (mainStartup fsDemo "test_files/segments").audio_files :=
    List.mem_mergeSort.mpr (by decide)
  exact ⟨⟨hmem, by decide⟩,
    audio_url_roundtrip fsDemo "test_files/segments" "test_files/segments/a.mp3" hmem (by decide)⟩

/-- C6: src applies no containment check on the caller-supplied path.
Every existing regular file is served with status 200 and its bytes,
also when the path is not under the segments directory (the second
hypothesis states that and is never even needed). -/
theorem src_no_containment_check (fs : FS) (segmentsDir p : String)
    (hfile : fs.isFile p = true)
    (_houtside : (segmentsDir ++ "/").data.isPrefixOf p.data = false) :
    (src fs p).response.status = 200 ∧
    (src fs p).response.body = Body.bytes (fs.readFile p) := by
  simp [src, hfile]

/-- Witness for C6 at a file far outside the segments directory. -/
theorem src_no_containment_check_witness :
    (fsDemo.isFile "/etc/passwd" = true ∧
     ("test_files/segments" ++ "/").data.isPrefixOf "/etc/passwd".data = false) ∧
    ((src fsDemo "/etc/passwd").response.status = 200 ∧
     (src fsDemo "/etc/passwd").response.body = Body.bytes (fsDemo.readFile "/etc/passwd")) :=
  ⟨⟨by decide, by decide⟩,
    src_no_containment_check fsDemo "test_files/segments" "/etc/passwd" (by decide) (by decide)⟩

/-- Counterexample to C7 as stated: the WAV file a.wav is served with
media type audio/mpeg, which is not the audio MIME type appropriate to
the WAV format (audio/wav), so the endpoint does not respond with a MIME
type appropriate to the format of every file. -/
theorem src_mime_not_format_appropriate_cex :
    fsDemo.isFile "a.wav" = true ∧
    (src fsDemo "a.wav").response.status = 200 ∧
    appropriateAudioMime "a.wav" = "audio/wav" ∧
    (src fsDemo "a.wav").response.media_type ≠ appropriateAudioMime "a.wav" := by
  decide

/-- C7 amended: for every path argument resolving to an existing regular
file, src responds with the constant MIME type audio/mpeg, regardless of
the format of the file. -/
theorem src_mime_always_audio_mpeg (fs : FS) (p : String) (h : fs.isFile p = true) :
    (src fs p).response.media_type = "audio/mpeg" := by
  simp [src, h]

/-- Witness for the amended C7 at the concrete WAV file. -/
theorem src_mime_always_audio_mpeg_witness :
    fsDemo.isFile "a.wav" = true ∧
    (src fsDemo "a.wav").response.media_type = "audio/mpeg" :=
  ⟨by decide, src_mime_always_audio_mpeg fsDemo "a.wav" (by decide)⟩

/-- C8: src is stateless and idempotent. It is a pure function of its
path argument and the filesystem, so two invocations under the same
filesystem state agree; moreover two invocations under any two
filesystem states that agree on the relevant path (same file status,
same bytes) return identical results. -/
theorem src_stateless_idempotent (fs₁ fs₂ : FS) (p : String)
    (hfile : fs₁.isFile p = fs₂.isFile p)
    (hbytes : fs₁.readFile p = fs₂.readFile p) :
    src fs₁ p = src fs₂ p := by
  simp only [src]
  rw [hfile, hbytes]

/-- Witness for C8: two different filesystem snapshots agreeing on one
path give identical responses there. -/
theorem src_stateless_idempotent_witness :
    (fsDemo.isFile "test_files/segments/a.mp3" = fsNoDir.isFile "test_files/segments/a.mp3" ∧
     fsDemo.readFile "test_files/segments/a.mp3" = fsNoDir.readFile "test_files/segments/a.mp3") ∧
    src fsDemo "test_files/segments/a.mp3" = src fsNoDir "test_files/segments/a.mp3" :=
  ⟨⟨by decide, by decide⟩,
    src_stateless_idempotent fsDemo fsNoDir "test_files/segments/a.mp3" (by decide) (by decide)⟩

/-- C9: the audio file list and the URL list are computed once at
startup — the startup scan trace holds the single directory scan, taken
only when the directory exists — and handling any sequence of index or
audio requests leaves both lists unchanged and performs no further
directory scan. -/
theorem startup_lists_immutable_no_rescan (st : AppState) (rs : List Request)
    (fs : FS) (dir : String) :
    ((handleRequests st rs).1).audio_files = st.audio_files ∧
    ((handleRequests st rs).1).audio_urls = st.audio_urls ∧
    (handleRequests st rs).2 = [] ∧
    (mainStartup fs dir).scans = (if fs.pathExists dir then [dir] else []) := by
  obtain ⟨h1, h2⟩ := handleRequests_state_fix st rs
  exact ⟨by rw [h1], by rw [h1], h2, rfl⟩

/-- C10: the URL list built at startup is exactly the audio file list
mapped through literal concatenation of the query text and the path, so
it has the same length and order, and no escaping is applied. -/
theorem audio_urls_literal_build (fs : FS) (dir : String) :
    (mainStartup fs dir).audio_urls =
      (mainStartup fs dir).audio_files.map (fun f => "/audio/src?path=" ++ f) ∧
    (mainStartup fs dir).audio_urls.length = (mainStartup fs dir).audio_files.length := by
  have hurls : (mainStartup fs dir).audio_urls =
      (mainStartup fs dir).audio_files.map buildAudioUrl := rfl
  constructor
  · rw [hurls]
    apply List.map_congr_left
    intro f _
    exact buildAudioUrl_eq f
  · rw [hurls, List.length_map]
